import Mathlib

/-!
Shallow embedding of the drone-risk-assessment repository's ingestion-and-
buffering core, and proofs of the specification claims about it.

Modelling conventions:
* Python floats are modelled as rationals (ℚ).  Every numeric computation in
  the embedded code (linear formulas, clamping with max/min, division) is
  exact on ℚ; Python's `round(x, 2)` is modelled by `round2` below
  (round-half-up at two decimals; every concrete value appearing in the
  claims is exact at two decimals, where all rounding modes agree).
* Python code that can raise is modelled in the `Except PyErr` monad; a
  `try/except` block corresponds to a `match` on the `Except` value.
* JSON values are modelled by the inductive type `Json`; a message that is
  not parseable JSON at all is modelled as `none : Option Json`.
* Two Python builtins whose exact behaviour lives outside the repository are
  taken as parameters: `float(s)` on strings (`strVal : String → Option ℚ`,
  `none` meaning `float` raises ValueError) and `math.hypot`
  (`hyp : ℚ → ℚ → ℚ`); theorems quantify over them.
-/

unseal Rat.add Rat.sub Rat.mul Rat.inv Rat.ofScientific

/-- Python `max(a, b)`: the first argument when arguments compare equal. -/
def pymax (a b : ℚ) : ℚ := if b ≤ a then a else b

/-- Python `min(a, b)`: the first argument when arguments compare equal. -/
def pymin (a b : ℚ) : ℚ := if a ≤ b then a else b

/-- Python `max(lo, min(hi, x))`, the clamping pattern used throughout the
repository's risk formulas. -/
def clamp (lo hi x : ℚ) : ℚ := pymax lo (pymin hi x)

lemma pymax_eq_max (a b : ℚ) : pymax a b = max a b := by
  unfold pymax
  rcases le_total b a with h | h
  · rw [if_pos h, max_eq_left h]
  · rcases eq_or_lt_of_le h with rfl | hlt
    · simp
    · rw [if_neg (not_le.mpr hlt), max_eq_right h]

lemma pymin_eq_min (a b : ℚ) : pymin a b = min a b := by
  unfold pymin
  rcases le_total a b with h | h
  · rw [if_pos h, min_eq_left h]
  · rcases eq_or_lt_of_le h with rfl | hlt
    · simp
    · rw [if_neg (not_le.mpr hlt), min_eq_right h]

lemma clamp_eq (lo hi x : ℚ) : clamp lo hi x = max lo (min hi x) := by
  rw [clamp, pymax_eq_max, pymin_eq_min]

/-- Python `round(x, 2)` modelled on ℚ: round half up at two decimals,
implemented with the computable `Rat.floor`. -/
def round2 (q : ℚ) : ℚ := ((q * 100 + 1/2).floor : ℚ) / 100

lemma ratFloor_eq_floor (q : ℚ) : q.floor = ⌊q⌋ := by
  rw [Rat.floor_def', Rat.floor_def]

lemma round2_eq_round (q : ℚ) : round2 q = ((round (q * 100) : ℤ) : ℚ) / 100 := by
  rw [round_eq, round2, ratFloor_eq_floor]

lemma round2_mono {a b : ℚ} (h : a ≤ b) : round2 a ≤ round2 b := by
  unfold round2
  rw [ratFloor_eq_floor, ratFloor_eq_floor]
  have h1 : ⌊a * 100 + 1/2⌋ ≤ ⌊b * 100 + 1/2⌋ := Int.floor_le_floor (by linarith)
  have h2 : ((⌊a * 100 + 1/2⌋ : ℤ) : ℚ) ≤ ((⌊b * 100 + 1/2⌋ : ℤ) : ℚ) := by exact_mod_cast h1
  linarith

lemma round2_100 : round2 100 = 100 := by decide

lemma round2_nonneg {q : ℚ} (h : 0 ≤ q) : 0 ≤ round2 q := by
  have := round2_mono h
  have h0 : round2 0 = 0 := by decide
  linarith

lemma round2_le_100 {q : ℚ} (h : q ≤ 100) : round2 q ≤ 100 := by
  have := round2_mono h
  linarith [round2_100]

lemma clamp_bounds {lo hi : ℚ} (x : ℚ) (h0 : 0 ≤ lo) (h1 : hi ≤ 100) (h2 : lo ≤ 100) :
    0 ≤ clamp lo hi x ∧ clamp lo hi x ≤ 100 := by
  rw [clamp_eq]
  exact ⟨le_trans h0 (le_max_left _ _), max_le h2 (le_trans (min_le_left _ _) h1)⟩

/-- The Python exceptions the embedded code can raise or catch. -/
inductive PyErr
  | typeError
  | valueError
  | keyError
  | attributeError
  | zeroDivisionError
  | jsonDecodeError
deriving DecidableEq, Repr

/-- JSON values, the result of a successful `json.loads`.  Objects are field
lists; `json.loads` never produces duplicate keys, and all lookups below take
the first binding. -/
inductive Json
  | null
  | bool (b : Bool)
  | num (q : ℚ)
  | str (s : String)
  | arr (elems : List Json)
  | obj (fields : List (String × Json))

/-- Key lookup in a JSON object's field list (Python `d[k]` / `k in d`). -/
def Json.lookupKey : List (String × Json) → String → Option Json
  | [], _ => none
  | (k, v) :: rest, key => if k = key then some v else Json.lookupKey rest key

/-- Python truthiness of a JSON value (`if drone_data.is_valid:`). -/
def Json.truthy : Json → Bool
  | .null => false
  | .bool b => b
  | .num q => decide (q ≠ 0)
  | .str s => decide (s ≠ "")
  | .arr elems => !elems.isEmpty
  | .obj fields => !fields.isEmpty

/-- Python `j[k]` on a decoded JSON value: KeyError when the key is missing
from an object, TypeError when `j` is not an object (string indices must be
integers, list indices must be integers, etc.). -/
def Json.getItem (j : Json) (k : String) : Except PyErr Json :=
  match j with
  | .obj fields =>
      match Json.lookupKey fields k with
      | some v => .ok v
      | none => .error .keyError
  | _ => .error .typeError

/-- Python `"pat" in s` substring test (used when `msg_data` decodes to a
string and the code evaluates `"data" in msg_data`). -/
def strContains (s pat : String) : Bool := decide (2 ≤ (s.splitOn pat).length)

/-- Python membership `Json.str "data" ∈ list` for a decoded JSON array:
`"data" == e` is true only for the equal string element. -/
def Json.strElem (pat : String) : List Json → Bool
  | [] => false
  | .str s :: rest => s = pat || Json.strElem pat rest
  | _ :: rest => Json.strElem pat rest

namespace Simulator

/-- State of `DroneSimulation.__init__` (src/simulator/DroneSimulation.py):
stores the zone boundaries and total time.  It performs no validation of
`kill_zone < protect_zone`. -/
structure DroneSimulation where
  D1 : ℚ
  D2 : ℚ
  total_time : ℚ
deriving DecidableEq, Repr

/-- Constructor `DroneSimulation(protect_zone, kill_zone, total_time)`: it
merely stores its arguments (defaults 1000, 200, 60). -/
def DroneSimulation.init (protect_zone : ℚ := 1000) (kill_zone : ℚ := 200)
    (total_time : ℚ := 60) : DroneSimulation :=
  ⟨protect_zone, kill_zone, total_time⟩

/-- Method `DroneRiskCalculator.calculate_risk` (src/simulator/DroneRiskCalculator.py,
lines 17-43), linear-ratio model with trend correction; `D1 = protect_zone`,
`D2 = kill_zone`, `max_risk = 100`, `min_risk = 0`.  Division is total on ℚ;
see `calculate_riskE` for the variant that models Python's
ZeroDivisionError. -/
def calculate_risk (D1 D2 distance change_rate : ℚ) : ℚ :=
  let r_base :=
    if D1 < distance then clamp 0 100 (100 * (D1 - distance) / (D1 - D2))
    else if D2 < distance ∧ distance ≤ D1 then 70
    else 100
  let r_final :=
    if change_rate < 0 then r_base * 1.2
    else if 0 < change_rate then r_base * 0.8
    else r_base
  round2 (clamp 0 100 r_final)

/-- Method `DroneRiskCalculator.calculate_risk` with Python division semantics made
explicit: when `distance > D1` the formula divides by `D1 - D2`, and Python
raises ZeroDivisionError if that is zero. -/
def calculate_riskE (D1 D2 distance change_rate : ℚ) : Except PyErr ℚ := do
  let r_base ←
    if D1 < distance then
      if D1 - D2 = 0 then Except.error PyErr.zeroDivisionError
      else Except.ok (clamp 0 100 (100 * (D1 - distance) / (D1 - D2)))
    else if D2 < distance ∧ distance ≤ D1 then Except.ok 70
    else Except.ok 100
  let r_final :=
    if change_rate < 0 then r_base * 1.2
    else if 0 < change_rate then r_base * 0.8
    else r_base
  Except.ok (round2 (clamp 0 100 r_final))

end Simulator

namespace ProductiveConsumption

/-- The `DroneData` dataclass of
src/productive_consumption/DroneSimService.py. -/
structure DroneData where
  timestamp : ℚ
  distance : ℚ
  change_rate : ℚ
  risk_value : ℚ
deriving DecidableEq, Repr

/-- The risk computation inlined in `DroneSimService._simulate_single_data`
(src/productive_consumption/DroneSimService.py, lines 50-68).  Note that,
unlike `Simulator.calculate_risk`, this variant rounds first and clamps the
rounded value. -/
def sim_risk (D1 D2 distance change_rate : ℚ) : ℚ :=
  let r_base :=
    if D1 < distance then clamp 0 100 (100 * (D1 - distance) / (D1 - D2))
    else if D2 < distance ∧ distance ≤ D1 then 70
    else 100
  let r_final :=
    if change_rate < 0 then r_base * 1.2
    else if 0 < change_rate then r_base * 0.8
    else r_base
  clamp 0 100 (round2 r_final)

/-- Method `DroneSimService._simulate_single_data` (lines 40-75): piecewise-linear
distance profile (1500 m down to 800 m and back) plus the inlined risk
computation. -/
def simulate_single_data (D1 D2 total_time current_time : ℚ) : DroneData :=
  let distance :=
    if current_time ≤ total_time / 2 then
      1500 - (1500 - 800) * (current_time / (total_time / 2))
    else
      800 + (1500 - 800) * ((current_time - total_time / 2) / (total_time / 2))
  let change_rate :=
    if current_time ≤ total_time / 2 then -(1500 - 800) / (total_time / 2)
    else (1500 - 800) / (total_time / 2)
  ⟨current_time, distance, change_rate, sim_risk D1 D2 distance change_rate⟩

end ProductiveConsumption

namespace ServerModel

/-- State of `DroneHTTPServer.__init__` (src/server_model/DroneHTTPServer.py,
lines 26-35): stores the zone boundaries; no validation of
`kill_zone < protect_zone` is performed.  (Flask route wiring is out of
scope.) -/
structure DroneHTTPServer where
  D1 : ℚ
  D2 : ℚ
deriving DecidableEq, Repr

/-- Constructor `DroneHTTPServer(protect_zone, kill_zone)`: it merely stores
its arguments (defaults 1000, 200). -/
def DroneHTTPServer.init (protect_zone : ℚ := 1000) (kill_zone : ℚ := 200) :
    DroneHTTPServer :=
  ⟨protect_zone, kill_zone⟩

/-- The `DroneData` dataclass of src/server_model/DronHTTPClient.py.  The
Python dataclass annotates its fields as floats and bool but does not enforce
the annotation: `_request_drone_data` stores whatever JSON values the
response body carried, so the fields are modelled as `Json`. -/
structure DroneData where
  timestamp : Json
  distance : Json
  change_rate : Json
  risk_value : Json
  is_valid : Json

/-- The synthetic observation the client builds on a failed request:
`DroneData(timestamp=0, distance=0, change_rate=0, risk_value=0,
is_valid=False)`. -/
def invalid_data : DroneData :=
  ⟨.num 0, .num 0, .num 0, .num 0, .bool false⟩

/-- Outcome of one `requests.get` call as seen by the client: either a
response with a status code and a body (`none` body = the body is not
parseable JSON, so `response.json()` raises), or a raised
`requests.exceptions.RequestException` (timeout, connection refused...). -/
inductive HttpResult
  | resp (status : ℕ) (body : Option Json)
  | exn

/-- Method `DroneHTTPClient._request_drone_data` (src/server_model/DronHTTPClient.py,
lines 109-132).  Only `requests.exceptions.RequestException` is caught (the
JSON decode error raised by `response.json()` is one); a `KeyError` raised by
`data["..."]` on a well-formed JSON object that lacks a field propagates to
the caller. -/
def request_drone_data : HttpResult → Except PyErr DroneData
  | .exn => .ok invalid_data
  | .resp status body =>
    if status = 200 then
      match body with
      | none => .ok invalid_data
      | some j => do
          let ts ← j.getItem "timestamp"
          let dist ← j.getItem "distance"
          let cr ← j.getItem "change_rate"
          let rv ← j.getItem "risk_value"
          let iv ← j.getItem "is_valid"
          .ok ⟨ts, dist, cr, rv, iv⟩
    else .ok invalid_data

/-- The mutable state of `DroneHTTPClient` (src/server_model/DronHTTPClient.py,
lines 39-51) that `_update_plot` touches; figure and axis objects are out of
scope. -/
structure DroneHTTPClient where
  failed_count : ℕ
  max_failed : ℕ
  is_running : Bool
  collected_data : List DroneData

/-- Constructor `DroneHTTPClient.__init__`: `failed_count = 0`, `max_failed = 3`,
`is_running = False`, empty cache. -/
def DroneHTTPClient.init : DroneHTTPClient := ⟨0, 3, false, []⟩

/-- Method `DroneHTTPClient.start_client` state effect: sets `is_running = True`. -/
def start_client (c : DroneHTTPClient) : DroneHTTPClient :=
  { c with is_running := true }

/-- One animation tick, `DroneHTTPClient._update_plot`
(src/server_model/DronHTTPClient.py, lines 134-202), restricted to its state
effect.  Returns the updated state and whether an HTTP request was issued
this tick; an uncaught exception from `_request_drone_data` is an `.error`.
Chart updates, text updates and the sleep are out of scope. -/
def update_plot (st : DroneHTTPClient) (r : HttpResult) :
    Except PyErr (DroneHTTPClient × Bool) :=
  if st.is_running = false then .ok (st, false)
  else
    match request_drone_data r with
    | .error e => .error e
    | .ok drone_data =>
      let st1 :=
        if drone_data.is_valid.truthy then
          { st with failed_count := 0,
                    collected_data := st.collected_data ++ [drone_data] }
        else
          { st with failed_count := st.failed_count + 1 }
      let st2 :=
        if st1.max_failed ≤ st1.failed_count then { st1 with is_running := false }
        else st1
      .ok (st2, true)

/-- A sequence of animation ticks driven by `FuncAnimation`, fed one
`HttpResult` per tick.  Returns the final state and the number of HTTP
requests issued; an uncaught exception aborts the run. -/
def runTicks (st : DroneHTTPClient) : List HttpResult → DroneHTTPClient × ℕ
  | [] => (st, 0)
  | r :: rest =>
    match update_plot st r with
    | .error _ => (st, if st.is_running then 1 else 0)
    | .ok (st1, issued) =>
      let (stf, n) := runTicks st1 rest
      (stf, (if issued then 1 else 0) + n)

end ServerModel

namespace Websocket

/-- The `DroneData` dataclass of src/websocket/Drondata.py (timestamps as
rationals). -/
structure DroneData where
  sys_time : ℚ
  x : ℚ
  y : ℚ
  z : ℚ
  distance : ℚ
  risk_value : ℚ
  is_valid : Bool
deriving DecidableEq, Repr

/-- State of `DataBuffer.__init__` (src/websocket/DataBuffer.py): latest
observation, trailing-window history, last receive time.  The lock is a
concurrency artifact with no effect on the sequential state and is not
modelled. -/
structure DataBuffer where
  latest_data : Option DroneData
  collected_data : List DroneData
  last_receive_time : Option ℚ
deriving DecidableEq, Repr

/-- The freshly constructed buffer: `latest_data = None`,
`collected_data = []`, `last_receive_time = None`. -/
def DataBuffer.init : DataBuffer := ⟨none, [], none⟩

/-- Method `DataBuffer.update_data` (src/websocket/DataBuffer.py, lines 17-23):
set latest, evict history entries older than `now - window`, append, record
the receive time.  `window` is `Constant.DISPLAY_WINDOW` (the `globals`
module defining `Constant` is not under src/, so the window is a parameter);
both clock reads (`datetime.now()` and `time.time()`) of one call are the
single instant `now`. -/
def update_data (window now : ℚ) (buf : DataBuffer) (drone_data : DroneData) :
    DataBuffer :=
  { latest_data := some drone_data
    collected_data :=
      (buf.collected_data.filter (fun d => now - window ≤ d.sys_time)) ++ [drone_data]
    last_receive_time := some now }

/-- Method `DataBuffer.get_latest_data` (lines 25-27): returns `self.latest_data`
itself — the reference, not a copy.  See `WebsocketRef` for the aliasing
consequences, which a value-level model cannot show. -/
def get_latest_data (buf : DataBuffer) : Option DroneData := buf.latest_data

/-- Method `DataBuffer.get_collected_data` (lines 29-31): returns
`self.collected_data.copy()`; in the value model a copy is the value
itself. -/
def get_collected_data (buf : DataBuffer) : List DroneData := buf.collected_data

/-- Middle branch of `DroneWebSocketClient._calculate_risk`
(src/websocket/DroneWebSocketClient.py, lines 31-32), for
`KILL_ZONE < distance <= PROTECT_ZONE`. -/
def risk_middle (KZ PZ distance : ℚ) : ℚ :=
  clamp 70 100 (100 - (distance - KZ) * 30 / (PZ - KZ))

/-- Outer branch of `DroneWebSocketClient._calculate_risk` (lines 34-35), for
`distance > PROTECT_ZONE`. -/
def risk_outer (KZ PZ distance : ℚ) : ℚ :=
  clamp 0 70 (70 - (distance - PZ) * 70 / (PZ * 2))

/-- Method `DroneWebSocketClient._calculate_risk` (src/websocket/DroneWebSocketClient.py,
lines 25-36), the zone-linear, trend-independent model.  `KZ, PZ` stand for
`Constant.KILL_ZONE, Constant.PROTECT_ZONE` (1000 and 10000 in the in-repo
variant src/websocket/test.py). -/
def calculate_risk (KZ PZ distance : ℚ) : ℚ :=
  round2 (if distance ≤ KZ then 100
          else if KZ < distance ∧ distance ≤ PZ then risk_middle KZ PZ distance
          else risk_outer KZ PZ distance)

/-- Python `float(v)` on a decoded JSON value: numbers pass through, booleans
become 0/1, strings go through the parameter `strVal` (ValueError when it
fails), everything else raises TypeError. -/
def pyFloat (strVal : String → Option ℚ) : Json → Except PyErr ℚ
  | .num q => .ok q
  | .bool b => .ok (if b then 1 else 0)
  | .str s =>
      match strVal s with
      | some q => .ok q
      | none => .error .valueError
  | .null => .error .typeError
  | .arr _ => .error .typeError
  | .obj _ => .error .typeError

/-- The `pos_data` selection of `DroneWebSocketClient.on_message` (lines
101-104): `msg_data["data"] if "data" in msg_data else msg_data`.  On a
non-object the Python expressions raise: `"data" in <number/bool/None>` is a
TypeError; on a list, either the index `["data"]` is a TypeError or the later
`.get` an AttributeError; on a string likewise. -/
def data_payload : Json → Except PyErr Json
  | .obj fields =>
      match Json.lookupKey fields "data" with
      | some v => .ok v
      | none => .ok (.obj fields)
  | .arr elems =>
      .error (if Json.strElem "data" elems then .typeError else .attributeError)
  | .str s => .error (if strContains s "data" then .typeError else .attributeError)
  | .null => .error .typeError
  | .bool _ => .error .typeError
  | .num _ => .error .typeError

/-- The field extraction of `on_message` (lines 107-109):
`float(pos_data.get("x", 0.0))` and likewise for y and z.  A missing key
silently defaults to `0.0`; a `pos_data` that is not an object has no `.get`
(AttributeError). -/
def extract_xyz (strVal : String → Option ℚ) : Json → Except PyErr (ℚ × ℚ × ℚ)
  | .obj fields => do
      let x ← pyFloat strVal ((Json.lookupKey fields "x").getD (.num 0))
      let y ← pyFloat strVal ((Json.lookupKey fields "y").getD (.num 0))
      let z ← pyFloat strVal ((Json.lookupKey fields "z").getD (.num 0))
      .ok (x, y, z)
  | _ => .error .attributeError

/-- The parsing part of `DroneWebSocketClient.on_message` (lines 98-109):
`json.loads` (a `none` message raises JSONDecodeError), payload selection,
field extraction. -/
def parse_message (strVal : String → Option ℚ) :
    Option Json → Except PyErr (ℚ × ℚ × ℚ)
  | none => .error .jsonDecodeError
  | some msg_data => do
      let pos_data ← data_payload msg_data
      extract_xyz strVal pos_data

/-- Method `DroneWebSocketClient.on_message` (src/websocket/DroneWebSocketClient.py,
lines 95-123) as a state transformer on the buffer: any exception in the
`try` block is caught (logged) and the message dropped; otherwise the
observation is built from `math.hypot(x, y)` (the parameter `hyp`), the
zone-linear risk, and the wall-clock receive time `now`, and written to the
buffer. -/
def on_message (hyp : ℚ → ℚ → ℚ) (strVal : String → Option ℚ)
    (KZ PZ window now : ℚ) (buf : DataBuffer) (message : Option Json) :
    DataBuffer :=
  match parse_message strVal message with
  | .error _ => buf
  | .ok (x, y, z) =>
      let distance := hyp x y
      let risk_value := calculate_risk KZ PZ distance
      update_data window now buf ⟨now, x, y, z, distance, risk_value, true⟩

end Websocket

namespace WebsocketRef

/-- Reference-level model of `DataBuffer.latest_data` for the aliasing claim:
Python objects live on a heap (addresses are indices into a list of
`DroneData` records) and the buffer stores an address.  `update_data` stores
the address of the observation passed in; `get_latest_data` returns the
stored address itself (`return self.latest_data` — no copy). -/
structure DataBufferRef where
  latest_data : Option ℕ
deriving DecidableEq, Repr

/-- The `self.latest_data = drone_data` assignment of `update_data`, at the
reference level. -/
def update_data (buf : DataBufferRef) (addr : ℕ) : DataBufferRef :=
  { buf with latest_data := some addr }

/-- Method `DataBuffer.get_latest_data` at the reference level: the stored reference
is returned as is. -/
def get_latest_data (buf : DataBufferRef) : Option ℕ := buf.latest_data

/-- A field assignment `obj.attr = v` performed by a caller on the object at
`addr`: the heap cell is replaced by `f` of its content. -/
def heap_write (heap : List Websocket.DroneData) (addr : ℕ)
    (f : Websocket.DroneData → Websocket.DroneData) : List Websocket.DroneData :=
  match heap[addr]? with
  | some d => heap.set addr (f d)
  | none => heap

/-- Dereference an optional address. -/
def deref (heap : List Websocket.DroneData) : Option ℕ → Option Websocket.DroneData
  | none => none
  | some a => heap[a]?

end WebsocketRef

/-- C1: for every distance and change_rate, with `kill_zone < protect_zone`
as configured, the risk returned by the scoring function lies in [0, 100],
in all three variants: the linear-ratio model of
`DroneRiskCalculator.calculate_risk` and of
`DroneSimService._simulate_single_data`, and the zone-linear model of
`DroneWebSocketClient._calculate_risk`. -/
theorem risk_score_bounded (D1 D2 KZ PZ distance change_rate : ℚ)
    (hzones : D2 < D1) (hwzones : KZ < PZ) :
    (0 ≤ Simulator.calculate_risk D1 D2 distance change_rate ∧
      Simulator.calculate_risk D1 D2 distance change_rate ≤ 100) ∧
    (0 ≤ ProductiveConsumption.sim_risk D1 D2 distance change_rate ∧
      ProductiveConsumption.sim_risk D1 D2 distance change_rate ≤ 100) ∧
    (0 ≤ Websocket.calculate_risk KZ PZ distance ∧
      Websocket.calculate_risk KZ PZ distance ≤ 100) := by
  refine ⟨?_, ?_, ?_⟩
  · simp only [Simulator.calculate_risk]
    have h := @clamp_bounds 0 100
      (if change_rate < 0 then
        (if D1 < distance then clamp 0 100 (100 * (D1 - distance) / (D1 - D2))
         else if D2 < distance ∧ distance ≤ D1 then 70 else 100) * 1.2
       else if 0 < change_rate then
        (if D1 < distance then clamp 0 100 (100 * (D1 - distance) / (D1 - D2))
         else if D2 < distance ∧ distance ≤ D1 then 70 else 100) * 0.8
       else
        (if D1 < distance then clamp 0 100 (100 * (D1 - distance) / (D1 - D2))
         else if D2 < distance ∧ distance ≤ D1 then 70 else 100))
      (by norm_num) (by norm_num) (by norm_num)
    exact ⟨round2_nonneg h.1, round2_le_100 h.2⟩
  · simp only [ProductiveConsumption.sim_risk]
    exact clamp_bounds _ (by norm_num) (by norm_num) (by norm_num)
  · simp only [Websocket.calculate_risk]
    have hbase :
        0 ≤ (if distance ≤ KZ then (100 : ℚ)
             else if KZ < distance ∧ distance ≤ PZ then Websocket.risk_middle KZ PZ distance
             else Websocket.risk_outer KZ PZ distance) ∧
        (if distance ≤ KZ then (100 : ℚ)
         else if KZ < distance ∧ distance ≤ PZ then Websocket.risk_middle KZ PZ distance
         else Websocket.risk_outer KZ PZ distance) ≤ 100 := by
      split_ifs with h1 h2
      · norm_num
      · exact @clamp_bounds 70 100 _ (by norm_num) (by norm_num) (by norm_num)
      · have h := @clamp_bounds 0 70
          (70 - (distance - PZ) * 70 / (PZ * 2)) (by norm_num) (by norm_num) (by norm_num)
        exact ⟨h.1, h.2⟩
    exact ⟨round2_nonneg hbase.1, round2_le_100 hbase.2⟩

/-- C1 witness: the bounds instantiated at the configured zones, the spec's
sample input `distance = 1500`, `change_rate = -23.3`. -/
theorem risk_score_bounded_witness :
    (0 ≤ Simulator.calculate_risk 1000 200 1500 (-23.3) ∧
      Simulator.calculate_risk 1000 200 1500 (-23.3) ≤ 100) ∧
    (0 ≤ ProductiveConsumption.sim_risk 1000 200 1500 (-23.3) ∧
      ProductiveConsumption.sim_risk 1000 200 1500 (-23.3) ≤ 100) ∧
    (0 ≤ Websocket.calculate_risk 1000 10000 1500 ∧
      Websocket.calculate_risk 1000 10000 1500 ≤ 100) :=
  risk_score_bounded 1000 200 1000 10000 1500 (-23.3) (by norm_num) (by norm_num)

/-- C5: in the linear-ratio model, for every distance strictly between the
zones the base risk is 70, so the trend correction gives exactly 84.0 when
closing (`change_rate < 0`) and exactly 56.0 when opening
(`change_rate > 0`), in both `DroneRiskCalculator.calculate_risk` and the
inline computation of `DroneSimService._simulate_single_data`. -/
theorem between_zones_trend_risk (D1 D2 distance change_rate : ℚ)
    (hlow : D2 < distance) (hhigh : distance ≤ D1) :
    (change_rate < 0 →
      Simulator.calculate_risk D1 D2 distance change_rate = 84 ∧
      ProductiveConsumption.sim_risk D1 D2 distance change_rate = 84) ∧
    (0 < change_rate →
      Simulator.calculate_risk D1 D2 distance change_rate = 56 ∧
      ProductiveConsumption.sim_risk D1 D2 distance change_rate = 56) := by
  have hnlt : ¬ D1 < distance := not_lt.mpr hhigh
  constructor
  · intro hcr
    simp only [Simulator.calculate_risk, ProductiveConsumption.sim_risk, if_neg hnlt,
      if_pos (And.intro hlow hhigh), if_pos hcr]
    constructor
    · decide
    · decide
  · intro hcr
    have hncr : ¬ change_rate < 0 := not_lt.mpr (le_of_lt hcr)
    simp only [Simulator.calculate_risk, ProductiveConsumption.sim_risk, if_neg hnlt,
      if_pos (And.intro hlow hhigh), if_neg hncr, if_pos hcr]
    constructor
    · decide
    · decide

/-- C5 witness: the spec's example, `distance = 500` with `kill_zone = 200`,
`protect_zone = 1000`. -/
theorem between_zones_trend_risk_witness :
    (Simulator.calculate_risk 1000 200 500 (-5) = 84 ∧
      ProductiveConsumption.sim_risk 1000 200 500 (-5) = 84) ∧
    (Simulator.calculate_risk 1000 200 500 5 = 56 ∧
      ProductiveConsumption.sim_risk 1000 200 500 5 = 56) :=
  ⟨(between_zones_trend_risk 1000 200 500 (-5) (by norm_num) (by norm_num)).1 (by norm_num),
   (between_zones_trend_risk 1000 200 500 5 (by norm_num) (by norm_num)).2 (by norm_num)⟩

/-- C7: the zone-linear model is continuous at both boundaries:
`score(kill_zone) = 100`, and at `distance = protect_zone` the middle-branch
formula and the outer-branch formula both evaluate to 70. -/
theorem zone_linear_boundary_continuity (KZ PZ : ℚ) (h : KZ < PZ) :
    Websocket.calculate_risk KZ PZ KZ = 100 ∧
    Websocket.risk_middle KZ PZ PZ = 70 ∧
    Websocket.risk_outer KZ PZ PZ = 70 := by
  refine ⟨?_, ?_, ?_⟩
  · rw [Websocket.calculate_risk, if_pos le_rfl]
    exact round2_100
  · have hne : PZ - KZ ≠ 0 := sub_ne_zero.mpr (ne_of_gt h)
    rw [Websocket.risk_middle, mul_comm, mul_div_assoc, div_self hne, mul_one]
    norm_num [clamp, pymax, pymin]
  · rw [Websocket.risk_outer, sub_self, zero_mul, zero_div, sub_zero]
    norm_num [clamp, pymax, pymin]

/-- C7 witness: the boundaries at the configured zones
`KILL_ZONE = 1000`, `PROTECT_ZONE = 10000`. -/
theorem zone_linear_boundary_continuity_witness :
    Websocket.calculate_risk 1000 10000 1000 = 100 ∧
    Websocket.risk_middle 1000 10000 10000 = 70 ∧
    Websocket.risk_outer 1000 10000 10000 = 70 :=
  zone_linear_boundary_continuity 1000 10000 (by norm_num)

/-- The observations of the spec's C4 test: one observation captured at each
integer second `t`; the payload fields are irrelevant to eviction. -/
def c4_obs (t : ℕ) : Websocket.DroneData := ⟨(t : ℚ), 0, 0, 0, 0, 0, true⟩

/-- The buffer after `update_data` calls at t = 0, 1, ..., 10 with window 5
(each call's `now` equals the observation's capture time). -/
def c4_final : Websocket.DataBuffer :=
  (List.range 11).foldl
    (fun b (t : ℕ) => Websocket.update_data 5 (t : ℚ) b (c4_obs t))
    Websocket.DataBuffer.init

/-- C4: immediately after every `update_data` call whose observation is
itself within the window, every element of the history satisfies
`captured_at ≥ now - window` (eviction happens on each write, before the
append); concretely, after updates at t = 0, ..., 10 with window 5 the
history holds exactly the observations captured in [5, 10]. -/
theorem windowed_buffer_invariant :
    (∀ (window now : ℚ) (buf : Websocket.DataBuffer) (d : Websocket.DroneData),
      now - window ≤ d.sys_time →
      ∀ e ∈ (Websocket.update_data window now buf d).collected_data,
        now - window ≤ e.sys_time) ∧
    Websocket.get_collected_data c4_final =
      [c4_obs 5, c4_obs 6, c4_obs 7, c4_obs 8, c4_obs 9, c4_obs 10] := by
  constructor
  · intro window now buf d hd e he
    simp only [Websocket.update_data, List.mem_append, List.mem_filter,
      List.mem_singleton, decide_eq_true_eq] at he
    rcases he with ⟨_, hkeep⟩ | rfl
    · exact hkeep
    · exact hd
  · decide

/-- C4 witness: the invariant applied to the final update of the concrete
run (window 5, now 10, observation captured at 10). -/
theorem windowed_buffer_invariant_witness :
    (10 : ℚ) - 5 ≤ (c4_obs 10).sys_time :=
  windowed_buffer_invariant.1 5 10 Websocket.DataBuffer.init (c4_obs 10)
    (by norm_num [c4_obs]) (c4_obs 10) (by decide)

/-- Helper for C2: a client whose `running` flag is down never issues another
request and its state never changes again, for any sequence of further
ticks. -/
lemma stopped_no_requests (st : ServerModel.DroneHTTPClient)
    (hstop : st.is_running = false) :
    ∀ rest : List ServerModel.HttpResult, ServerModel.runTicks st rest = (st, 0) := by
  intro rest
  induction rest with
  | nil => rfl
  | cons r tail ih =>
      have htick : ServerModel.update_plot st r = .ok (st, false) := by
        rw [ServerModel.update_plot, if_pos hstop]
      rw [ServerModel.runTicks, htick]
      simp [ih]

/-- C2: once `failed_count` reaches `max_failed = 3` the tick that got it
there also clears `is_running`, and from then on the client issues no HTTP
request and its state stays frozen for every sequence of subsequent ticks
(the circuit breaker is permanent for the instance). -/
theorem polling_circuit_breaker_permanent
    (st st' : ServerModel.DroneHTTPClient) (r : ServerModel.HttpResult)
    (issued : Bool)
    (hrun : st.is_running = true) (hmax : st.max_failed = 3)
    (htick : ServerModel.update_plot st r = .ok (st', issued))
    (htrip : 3 ≤ st'.failed_count) :
    st'.is_running = false ∧
    ∀ rest : List ServerModel.HttpResult,
      ServerModel.runTicks st' rest = (st', 0) := by
  have hstop : st'.is_running = false := by
    simp only [ServerModel.update_plot, hrun, Bool.true_eq_false, if_false] at htick
    rcases hreq : ServerModel.request_drone_data r with e | d <;> rw [hreq] at htick
    · simp at htick
    · simp only [Except.ok.injEq, Prod.mk.injEq] at htick
      obtain ⟨hst, -⟩ := htick
      subst hst
      cases hv : d.is_valid.truthy
      · by_cases hc : st.max_failed ≤ st.failed_count + 1
        · simp [hv, hc]
        · exfalso
          simp [hv, hc] at htrip
          rw [hmax] at hc
          omega
      · by_cases hc : st.max_failed ≤ 0
        · simp [hv, hc]
        · exfalso
          simp [hv, hc] at htrip
  exact ⟨hstop, stopped_no_requests st' hstop⟩

/-- C2 witness: a client two failures deep trips on the third failed tick
(`exn` = request exception) and then runs two more ticks with no request
issued and no state change. -/
theorem polling_circuit_breaker_permanent_witness :
    (⟨3, 3, false, []⟩ : ServerModel.DroneHTTPClient).is_running = false ∧
    ∀ rest : List ServerModel.HttpResult,
      ServerModel.runTicks ⟨3, 3, false, []⟩ rest = (⟨3, 3, false, []⟩, 0) :=
  polling_circuit_breaker_permanent ⟨2, 3, true, []⟩ ⟨3, 3, false, []⟩
    .exn true rfl rfl rfl (by norm_num)

namespace ServerModel

/-- The failure modes of one polling tick that `_request_drone_data` catches:
a raised `requests` exception (timeout, transport error), a non-200 status,
or a 200 body that is not parseable JSON (`response.json()` raises the
`requests` JSON decode error, a `RequestException` subclass). -/
def httpFailure : HttpResult → Prop
  | .exn => True
  | .resp status body => status ≠ 200 ∨ body = none

/-- Helper for C6: every caught failure mode returns the synthetic invalid
observation. -/
lemma request_failure_invalid (r : HttpResult) (h : httpFailure r) :
    request_drone_data r = .ok invalid_data := by
  cases r with
  | exn => rfl
  | resp status body =>
      rcases h with hs | hb
      · simp [request_drone_data, hs]
      · subst hb
        by_cases hs : status = 200
        · subst hs; rfl
        · simp [request_drone_data, hs]

/-- Helper for C6: the synthetic invalid observation is falsy. -/
lemma invalid_data_falsy : invalid_data.is_valid.truthy = false := rfl

end ServerModel

/-- C6 counterexample: the claim says every malformed payload makes the
request function return (not raise) an invalid observation, but an HTTP 200
response whose JSON body is an object missing the `timestamp` field makes
`_request_drone_data` raise `KeyError` (only `RequestException` is caught),
so the exception propagates out of the request-and-update step. -/
theorem request_missing_field_raises :
    ServerModel.request_drone_data (.resp 200 (some (Json.obj []))) =
      .error .keyError ∧
    ServerModel.update_plot ⟨0, 3, true, []⟩ (.resp 200 (some (Json.obj []))) =
      .error .keyError :=
  ⟨rfl, rfl⟩

/-- C6 (amended): on a 200 response whose JSON body is an object with all
five expected fields, the parsed observation is produced, and a running
client resets `failed_count` to 0 when the parsed `is_valid` is truthy; on
every caught failure (raised request exception, non-2xx status, non-JSON 200
body) the request function returns the invalid observation and a running
client increments `failed_count` by 1; but a 200 JSON object body missing a
required field raises `KeyError` out of the request function instead. -/
theorem polling_tick_contract :
    (∀ r : ServerModel.HttpResult, ServerModel.httpFailure r →
      ServerModel.request_drone_data r = .ok ServerModel.invalid_data) ∧
    (∀ (st st' : ServerModel.DroneHTTPClient) (r : ServerModel.HttpResult)
        (issued : Bool),
      st.is_running = true → ServerModel.httpFailure r →
      ServerModel.update_plot st r = .ok (st', issued) →
      st'.failed_count = st.failed_count + 1 ∧ issued = true) ∧
    (∀ (fields : List (String × Json)) (ts dist cr rv iv : Json),
      Json.lookupKey fields "timestamp" = some ts →
      Json.lookupKey fields "distance" = some dist →
      Json.lookupKey fields "change_rate" = some cr →
      Json.lookupKey fields "risk_value" = some rv →
      Json.lookupKey fields "is_valid" = some iv →
      ServerModel.request_drone_data (.resp 200 (some (.obj fields))) =
        .ok ⟨ts, dist, cr, rv, iv⟩) ∧
    (∀ (st st' : ServerModel.DroneHTTPClient) (r : ServerModel.HttpResult)
        (d : ServerModel.DroneData) (issued : Bool),
      st.is_running = true →
      ServerModel.request_drone_data r = .ok d →
      d.is_valid.truthy = true →
      ServerModel.update_plot st r = .ok (st', issued) →
      st'.failed_count = 0 ∧ issued = true) ∧
    (∀ fields : List (String × Json),
      Json.lookupKey fields "timestamp" = none →
      ServerModel.request_drone_data (.resp 200 (some (.obj fields))) =
        .error .keyError) := by
  refine ⟨ServerModel.request_failure_invalid, ?_, ?_, ?_, ?_⟩
  · intro st st' r issued hrun hfail htick
    simp only [ServerModel.update_plot, hrun, Bool.true_eq_false, if_false,
      ServerModel.request_failure_invalid r hfail, ServerModel.invalid_data_falsy,
      Bool.false_eq_true, if_false] at htick
    simp only [Except.ok.injEq, Prod.mk.injEq] at htick
    obtain ⟨hst, hiss⟩ := htick
    subst hst
    refine ⟨?_, hiss.symm⟩
    by_cases hc : st.max_failed ≤ st.failed_count + 1 <;> simp [hc]
  · intro fields ts dist cr rv iv hts hdist hcr hrv hiv
    simp only [ServerModel.request_drone_data, Json.getItem, hts, hdist, hcr, hrv, hiv,
      if_true, reduceIte]
    rfl
  · intro st st' r d issued hrun hreq hvalid htick
    simp only [ServerModel.update_plot, hrun, Bool.true_eq_false, if_false, hreq,
      hvalid, if_true] at htick
    simp only [Except.ok.injEq, Prod.mk.injEq] at htick
    obtain ⟨hst, hiss⟩ := htick
    subst hst
    refine ⟨?_, hiss.symm⟩
    by_cases hc : st.max_failed ≤ 0 <;> simp [hc]
  · intro fields h
    simp only [ServerModel.request_drone_data, Json.getItem, h, reduceIte]
    rfl

/-- C6 witness: each clause of the contract at a concrete input — a raised
request exception against a running client two short of the threshold, the
server's well-formed 200 body, and the empty-object 200 body. -/
theorem polling_tick_contract_witness :
    ServerModel.request_drone_data .exn = .ok ServerModel.invalid_data ∧
    ((⟨1, 3, true, []⟩ : ServerModel.DroneHTTPClient).failed_count =
      (⟨0, 3, true, []⟩ : ServerModel.DroneHTTPClient).failed_count + 1) ∧
    ServerModel.request_drone_data
        (.resp 200 (some (.obj [("timestamp", .num 1), ("distance", .num 500),
          ("change_rate", .num (-70/3)), ("risk_value", .num 84),
          ("is_valid", .bool true)]))) =
      .ok ⟨.num 1, .num 500, .num (-70/3), .num 84, .bool true⟩ ∧
    ((⟨0, 3, true, [⟨.num 1, .num 500, .num (-70/3), .num 84, .bool true⟩]⟩ :
        ServerModel.DroneHTTPClient).failed_count = 0) ∧
    ServerModel.request_drone_data (.resp 200 (some (.obj [("x", .num 1)]))) =
      .error .keyError := by
  refine ⟨polling_tick_contract.1 .exn trivial, ?_, ?_, ?_, ?_⟩
  · exact (polling_tick_contract.2.1 ⟨0, 3, true, []⟩ ⟨1, 3, true, []⟩ .exn true
      rfl trivial rfl).1
  · exact polling_tick_contract.2.2.1
      [("timestamp", .num 1), ("distance", .num 500), ("change_rate", .num (-70/3)),
        ("risk_value", .num 84), ("is_valid", .bool true)]
      (.num 1) (.num 500) (.num (-70/3)) (.num 84) (.bool true)
      rfl rfl rfl rfl rfl
  · exact (polling_tick_contract.2.2.2.1 ⟨1, 3, true, []⟩
      ⟨0, 3, true, [⟨.num 1, .num 500, .num (-70/3), .num 84, .bool true⟩]⟩
      (.resp 200 (some (.obj [("timestamp", .num 1), ("distance", .num 500),
        ("change_rate", .num (-70/3)), ("risk_value", .num 84),
        ("is_valid", .bool true)])))
      ⟨.num 1, .num 500, .num (-70/3), .num 84, .bool true⟩ true
      rfl rfl rfl rfl).1
  · exact polling_tick_contract.2.2.2.2 [("x", .num 1)] rfl

/-- C3 counterexample: the claim says every inbound message that is not a
JSON object with numeric x, y, z is dropped with the buffer unchanged, but
the empty JSON object `\x7b\x7d` has no x, y, z at all and is still written:
`pos_data.get` defaults the missing fields to 0.0, so an observation with
x = y = z = 0, distance 0 and risk 100 lands in the buffer.  (`math.hypot`
is instantiated by the constant-zero function, which agrees with the real
`hypot` at (0, 0); the string coercion is never reached.) -/
theorem streaming_drop_counterexample :
    Websocket.on_message (fun _ _ => 0) (fun _ => none) 1000 10000 40 0
        Websocket.DataBuffer.init (some (Json.obj [])) ≠
      Websocket.DataBuffer.init ∧
    Websocket.on_message (fun _ _ => 0) (fun _ => none) 1000 10000 40 0
        Websocket.DataBuffer.init (some (Json.obj [])) =
      ⟨some ⟨0, 0, 0, 0, 0, 100, true⟩, [⟨0, 0, 0, 0, 0, 100, true⟩], some 0⟩ := by
  constructor
  · decide
  · decide

/-- C3 (amended): a message that does not decode as JSON, decodes to a
non-object, selects a non-object `data` payload, or carries an x, y or z
value that `float` cannot coerce, is dropped: the handler catches the
exception, returns normally (the embedding is a total function) and the
buffer is unchanged.  But a JSON object merely *missing* x, y or z is not
dropped: the missing fields default to 0.0 and an observation is written;
in particular the empty object parses as (0, 0, 0). -/
theorem streaming_message_handling (hyp : ℚ → ℚ → ℚ) (strVal : String → Option ℚ)
    (KZ PZ window now : ℚ) (buf : Websocket.DataBuffer) (message : Option Json) :
    (∀ e : PyErr, Websocket.parse_message strVal message = .error e →
      Websocket.on_message hyp strVal KZ PZ window now buf message = buf) ∧
    (∀ x y z : ℚ, Websocket.parse_message strVal message = .ok (x, y, z) →
      Websocket.on_message hyp strVal KZ PZ window now buf message =
        Websocket.update_data window now buf
          ⟨now, x, y, z, hyp x y, Websocket.calculate_risk KZ PZ (hyp x y), true⟩) ∧
    Websocket.parse_message strVal none = .error .jsonDecodeError ∧
    Websocket.parse_message strVal (some (Json.obj [])) = .ok (0, 0, 0) := by
  refine ⟨?_, ?_, rfl, rfl⟩
  · intro e he
    rw [Websocket.on_message, he]
  · intro x y z hok
    rw [Websocket.on_message, hok]

/-- C3 witness: the dichotomy at concrete messages — a JSON number `5` is
dropped (Python `"data" in 5` raises TypeError, which `on_message` catches),
while an object carrying only `x` is written with y and z defaulted. -/
theorem streaming_message_handling_witness :
    Websocket.on_message (fun _ _ => 3) (fun _ => none) 1000 10000 40 0
        Websocket.DataBuffer.init (some (Json.num 5)) =
      Websocket.DataBuffer.init ∧
    Websocket.on_message (fun _ _ => 3) (fun _ => none) 1000 10000 40 0
        Websocket.DataBuffer.init (some (Json.obj [("x", Json.num 3)])) =
      Websocket.update_data 40 0 Websocket.DataBuffer.init
        ⟨0, 3, 0, 0, 3, Websocket.calculate_risk 1000 10000 3, true⟩ :=
  ⟨(streaming_message_handling (fun _ _ => 3) (fun _ => none) 1000 10000 40 0
      Websocket.DataBuffer.init (some (Json.num 5))).1 .typeError rfl,
   (streaming_message_handling (fun _ _ => 3) (fun _ => none) 1000 10000 40 0
      Websocket.DataBuffer.init (some (Json.obj [("x", Json.num 3)]))).2.1
      3 0 0 rfl⟩

/-- C10: for every inbound message the streaming client stores, the
observation's distance is `math.hypot` of x and y only — a value `d ≥ 0`
with `d² = x² + y²`, i.e. `sqrt(x² + y²)` — and the z coordinate affects
neither the stored distance nor the stored risk: two messages that parse to
the same x and y but different z produce identical distance and risk. -/
theorem distance_from_xy_only (hyp : ℚ → ℚ → ℚ) (strVal : String → Option ℚ)
    (KZ PZ window now : ℚ) (buf : Websocket.DataBuffer)
    (message message' : Option Json) (x y z z' d : ℚ)
    (hparse : Websocket.parse_message strVal message = .ok (x, y, z))
    (hparse' : Websocket.parse_message strVal message' = .ok (x, y, z'))
    (hhyp : hyp x y = d) (hd0 : 0 ≤ d) (hdsq : d ^ 2 = x ^ 2 + y ^ 2) :
    ((Websocket.on_message hyp strVal KZ PZ window now buf message).latest_data =
      some ⟨now, x, y, z, d, Websocket.calculate_risk KZ PZ d, true⟩) ∧
    (∀ o : Websocket.DroneData,
      (Websocket.on_message hyp strVal KZ PZ window now buf message).latest_data =
        some o →
      0 ≤ o.distance ∧ o.distance ^ 2 = o.x ^ 2 + o.y ^ 2) ∧
    ((Websocket.on_message hyp strVal KZ PZ window now buf message).latest_data.map
        (fun o => (o.distance, o.risk_value)) =
      (Websocket.on_message hyp strVal KZ PZ window now buf message').latest_data.map
        (fun o => (o.distance, o.risk_value))) := by
  have h1 : Websocket.on_message hyp strVal KZ PZ window now buf message =
      Websocket.update_data window now buf
        ⟨now, x, y, z, hyp x y, Websocket.calculate_risk KZ PZ (hyp x y), true⟩ := by
    rw [Websocket.on_message, hparse]
  have h2 : Websocket.on_message hyp strVal KZ PZ window now buf message' =
      Websocket.update_data window now buf
        ⟨now, x, y, z', hyp x y, Websocket.calculate_risk KZ PZ (hyp x y), true⟩ := by
    rw [Websocket.on_message, hparse']
  refine ⟨?_, ?_, ?_⟩
  · rw [h1, hhyp]
    rfl
  · intro o ho
    rw [h1] at ho
    simp only [Websocket.update_data, Option.some.injEq] at ho
    subst ho
    rw [hhyp]
    exact ⟨hd0, hdsq⟩
  · rw [h1, h2]
    rfl

/-- C10 witness: a message at (3, 4, 7) with `hypot` returning 5, against the
same position at z = 9. -/
theorem distance_from_xy_only_witness :
    (Websocket.on_message (fun _ _ => 5) (fun _ => none) 1000 10000 40 0
        Websocket.DataBuffer.init
        (some (Json.obj [("x", .num 3), ("y", .num 4), ("z", .num 7)]))).latest_data =
      some ⟨0, 3, 4, 7, 5, Websocket.calculate_risk 1000 10000 5, true⟩ :=
  (distance_from_xy_only (fun _ _ => 5) (fun _ => none) 1000 10000 40 0
    Websocket.DataBuffer.init
    (some (Json.obj [("x", .num 3), ("y", .num 4), ("z", .num 7)]))
    (some (Json.obj [("x", .num 3), ("y", .num 4), ("z", .num 9)]))
    3 4 7 9 5 rfl rfl rfl (by norm_num) (by norm_num)).1

/-- The concrete observation used in the C8 aliasing argument. -/
def c8_obs : Websocket.DroneData := ⟨0, 1, 2, 3, 10, 50, true⟩

/-- C8 counterexample: the claim says `get_latest_data` returns a copy, so
that mutating the returned object leaves the buffer's stored latest
observation unchanged — but the method returns `self.latest_data` itself.
With one observation on the heap and its address stored in the buffer, a
caller that sets `distance := 999` through the returned reference changes
what the buffer's `latest_data` dereferences to. -/
theorem get_latest_copy_counterexample :
    WebsocketRef.get_latest_data (WebsocketRef.update_data ⟨none⟩ 0) = some 0 ∧
    WebsocketRef.deref
        (WebsocketRef.heap_write [c8_obs] 0 (fun o => { o with distance := 999 }))
        (WebsocketRef.get_latest_data (WebsocketRef.update_data ⟨none⟩ 0)) ≠
      some c8_obs := by
  constructor
  · rfl
  · decide

/-- C8 (amended): `get_latest_data` returns the stored reference itself, not
a copy: whenever the buffer holds the address of a live observation, a field
assignment performed through the returned reference is visible in every
subsequent dereference of the buffer's `latest_data`.  (The buffer itself
never mutates stored observations, and `get_collected_data` does copy its
list, so the aliasing is only observable if a caller mutates.) -/
theorem get_latest_returns_alias (heap : List Websocket.DroneData)
    (buf : WebsocketRef.DataBufferRef) (addr : ℕ) (o : Websocket.DroneData)
    (f : Websocket.DroneData → Websocket.DroneData)
    (hlatest : WebsocketRef.get_latest_data buf = some addr)
    (hlive : heap[addr]? = some o) :
    WebsocketRef.deref (WebsocketRef.heap_write heap addr f)
      (WebsocketRef.get_latest_data buf) = some (f o) := by
  have hlt : addr < heap.length := by
    rcases List.getElem?_eq_some_iff.mp hlive with ⟨hl, -⟩
    exact hl
  rw [hlatest, WebsocketRef.heap_write, hlive, WebsocketRef.deref,
    List.getElem?_set_self hlt]

/-- C8 witness: the aliasing fact at the concrete heap of the
counterexample. -/
theorem get_latest_returns_alias_witness :
    WebsocketRef.deref
        (WebsocketRef.heap_write [c8_obs] 0 (fun o => { o with distance := 999 }))
        (WebsocketRef.get_latest_data ⟨some 0⟩) =
      some { c8_obs with distance := 999 } :=
  get_latest_returns_alias [c8_obs] ⟨some 0⟩ 0 c8_obs
    (fun o => { o with distance := 999 }) rfl rfl

/-- C9 counterexample: the claim says a component constructed with
`kill_zone ≥ protect_zone` fails fast at construction or first use, but with
`protect_zone = 200`, `kill_zone = 300` both constructors succeed (they
store the inverted zones without validation) and the first scoring call at
distance 250 silently returns 50.0 instead of signalling. -/
theorem inverted_zones_no_failfast :
    Simulator.DroneSimulation.init 200 300 60 =
      ⟨(200 : ℚ), (300 : ℚ), (60 : ℚ)⟩ ∧
    ServerModel.DroneHTTPServer.init 200 300 = ⟨(200 : ℚ), (300 : ℚ)⟩ ∧
    Simulator.calculate_riskE 200 300 250 0 = .ok 50 := by
  exact ⟨rfl, rfl, rfl⟩

/-- C9 (amended): no configuration validation exists: construction always
succeeds and merely stores the zones, and for every strictly inverted
configuration (`kill_zone > protect_zone`) every scoring call returns
normally with a value silently clamped into [0, 100]; the only input that
makes scoring raise is the degenerate `kill_zone = protect_zone` with a
distance beyond the boundary, where the linear-ratio formula divides by
zero. -/
theorem inverted_zones_silent_clamp :
    (∀ pz kz t : ℚ, Simulator.DroneSimulation.init pz kz t = ⟨pz, kz, t⟩) ∧
    (∀ pz kz : ℚ, ServerModel.DroneHTTPServer.init pz kz = ⟨pz, kz⟩) ∧
    (∀ pz kz d cr : ℚ, pz < kz →
      Simulator.calculate_riskE pz kz d cr =
        .ok (Simulator.calculate_risk pz kz d cr) ∧
      0 ≤ Simulator.calculate_risk pz kz d cr ∧
      Simulator.calculate_risk pz kz d cr ≤ 100) ∧
    (∀ pz d cr : ℚ, pz < d →
      Simulator.calculate_riskE pz pz d cr = .error .zeroDivisionError) := by
  refine ⟨fun _ _ _ => rfl, fun _ _ => rfl, ?_, ?_⟩
  · intro pz kz d cr hinv
    have hne : ¬ pz - kz = 0 := sub_ne_zero.mpr (ne_of_lt hinv)
    refine ⟨?_, ?_⟩
    · rw [Simulator.calculate_riskE, Simulator.calculate_risk]
      by_cases hd : pz < d
      · rw [if_pos hd, if_pos hd, if_neg hne]
        rfl
      · rw [if_neg hd, if_neg hd]
        by_cases hmid : kz < d ∧ d ≤ pz
        · rw [if_pos hmid, if_pos hmid]
          rfl
        · rw [if_neg hmid, if_neg hmid]
          rfl
    · simp only [Simulator.calculate_risk]
      have h := @clamp_bounds 0 100
        (if cr < 0 then
          (if pz < d then clamp 0 100 (100 * (pz - d) / (pz - kz))
           else if kz < d ∧ d ≤ pz then 70 else 100) * 1.2
         else if 0 < cr then
          (if pz < d then clamp 0 100 (100 * (pz - d) / (pz - kz))
           else if kz < d ∧ d ≤ pz then 70 else 100) * 0.8
         else
          (if pz < d then clamp 0 100 (100 * (pz - d) / (pz - kz))
           else if kz < d ∧ d ≤ pz then 70 else 100))
        (by norm_num) (by norm_num) (by norm_num)
      exact ⟨round2_nonneg h.1, round2_le_100 h.2⟩
  · intro pz d cr hd
    rw [Simulator.calculate_riskE, if_pos hd, if_pos (sub_self pz)]
    rfl

/-- C9 witness: the amended facts at `protect_zone = 200`,
`kill_zone = 300`, distance 250 (silent clamp) and at
`kill_zone = protect_zone = 200`, distance 250 (the lone raising case). -/
theorem inverted_zones_silent_clamp_witness :
    Simulator.DroneSimulation.init 200 300 60 =
      ⟨(200 : ℚ), (300 : ℚ), (60 : ℚ)⟩ ∧
    (Simulator.calculate_riskE 200 300 250 0 =
        .ok (Simulator.calculate_risk 200 300 250 0) ∧
      0 ≤ Simulator.calculate_risk 200 300 250 0 ∧
      Simulator.calculate_risk 200 300 250 0 ≤ 100) ∧
    Simulator.calculate_riskE 200 200 250 0 = .error .zeroDivisionError :=
  ⟨inverted_zones_silent_clamp.1 200 300 60,
   inverted_zones_silent_clamp.2.2.1 200 300 250 0 (by norm_num),
   inverted_zones_silent_clamp.2.2.2 200 250 0 (by norm_num)⟩
